import Mathlib

/-!
# Verification of the kubeconfig client-builder (`src/config/mod.rs`)

A shallow embedding of the credential-resolution engine: the data model of
the kubeconfig document, the token/basic-auth precedence logic, the TLS
trust and identity steps, and the in-cluster path.  Effectful primitives
(file reads, environment variables, base64/PEM/PKCS12 decoding, the exec
plugin subprocess) are supplied by an explicit `World` of oracle functions,
so every definition is executable on concrete inputs.

Functions present in `src/config/mod.rs` are translated directly.  The
submodules `utils`, `kube_config`, `exec`, `incluster_config` and `apis`
are not part of the provided source; their small helpers (`data_or_file`,
`ca_bundle`, `p12`, `kube_server`, `load_cert`, `load_token`,
`load_default_ns`, the config structs) are modelled from the spec and say
so in their doc comments.
-/

namespace KubeConfig

/-- Modelled from the spec: `ExecConfig` from `apis` (source file absent) —
`command: string`, `args: ordered sequence of string`, `env: mapping of
name→value`, `api_version: string`. -/
structure ExecConfig where
  command : String
  args : List String
  env : List (String × String)
  api_version : String
deriving Repr, DecidableEq

/-- Modelled from the spec: exec plugin credential response status,
providing `token` and/or client certificate material. -/
structure ExecStatus where
  token : Option String
  clientCertificateData : Option String
  clientKeyData : Option String
deriving Repr, DecidableEq

/-- Modelled from the spec: exec plugin structured credential response;
the `status` field is optional in the wire format. -/
structure ExecCredential where
  status : Option ExecStatus
deriving Repr, DecidableEq

/-- Modelled from the spec: `Cluster` from `apis` (source file absent). -/
structure Cluster where
  server : String
  certificate_authority : Option String
  certificate_authority_data : Option String
  insecure_skip_tls_verify : Option Bool
deriving Repr, DecidableEq

/-- Modelled from the spec: `AuthInfo` (user record) from `apis`
(source file absent). -/
structure AuthInfo where
  token : Option String
  token_file : Option String
  username : Option String
  password : Option String
  client_certificate : Option String
  client_certificate_data : Option String
  client_key : Option String
  client_key_data : Option String
  exec : Option ExecConfig
deriving Repr, DecidableEq

/-- Modelled from the spec: the `KubeConfigLoader` produced by
`kube_config::KubeConfigLoader::load` (source file absent): the
materialized `(Cluster, AuthInfo, namespace-or-"default")` triple selected
for the current build. -/
structure KubeConfigLoader where
  cluster : Cluster
  user : AuthInfo
  /-- the context's namespace when set, else the literal `"default"`
  (the field is spelled `namespace` in the source format, a Lean keyword). -/
  ns : String
deriving Repr, DecidableEq

/-- Error kinds of the source (`ErrorKind::KubeConfig(msg)` and
`ErrorKind::SslError`). -/
inductive ErrorKind where
  | KubeConfig (msg : String)
  | SslError
deriving Repr, DecidableEq

/-- The effectful primitives the resolution engine calls into, as oracle
functions: the file system, the process environment, the base64/PEM/PKCS12
codecs of the TLS libraries, and the exec-plugin subprocess.  Certificates,
DER blobs, PKCS12 bundles and identities are opaque strings. -/
structure World where
  /-- `std::fs` read of a file, `none` when missing/unreadable. -/
  readFile : String → Option String
  /-- `std::env::var`, `none` when the variable is unset. -/
  getEnv : String → Option String
  /-- `base64::decode`, `none` on malformed encoding. -/
  b64decode : String → Option String
  /-- `openssl X509` stack parse of a CA bundle, `none` on malformed data. -/
  parseCerts : String → Option (List String)
  /-- parse of a single PEM certificate, `none` on malformed data. -/
  parseCert : String → Option String
  /-- `X509::to_der`, `none` on failure. -/
  toDer : String → Option String
  /-- `reqwest::Certificate::from_der`, `none` on failure. -/
  fromDer : String → Option String
  /-- `openssl Pkcs12::builder().build(password, cert, key)`, `none` on
  malformed certificate or key material. -/
  p12pack : String → String → String → Option String
  /-- `Pkcs12::to_der`, `none` on failure. -/
  p12ToDer : String → Option String
  /-- `reqwest::Identity::from_pkcs12_der(der, password)`, `none` on
  failure. -/
  identityFromDer : String → String → Option String
  /-- `exec::auth_exec`: spawn the plugin process and parse its stdout;
  `Except.error` covers process failure and unparseable output. -/
  execRun : ExecConfig → Except String ExecCredential

/-- `reqwest::ClientBuilder` state accumulated by the source: trusted
roots, optional client identity, the insecure flag, default headers. -/
structure ClientBuilderState where
  root_certificates : List String
  identity : Option String
  danger_accept_invalid_certs : Bool
  default_headers : List (String × String)
deriving Repr, DecidableEq

/-- `reqwest::Client::builder()`. -/
def ClientBuilderState.new : ClientBuilderState :=
  ⟨[], none, false, []⟩

def ClientBuilderState.add_root_certificate (cb : ClientBuilderState)
    (cert : String) : ClientBuilderState :=
  { cb with root_certificates := cb.root_certificates ++ [cert] }

def ClientBuilderState.set_identity (cb : ClientBuilderState)
    (idn : String) : ClientBuilderState :=
  { cb with identity := some idn }

def ClientBuilderState.set_danger (cb : ClientBuilderState)
    (b : Bool) : ClientBuilderState :=
  { cb with danger_accept_invalid_certs := b }

def ClientBuilderState.set_default_headers (cb : ClientBuilderState)
    (hs : List (String × String)) : ClientBuilderState :=
  { cb with default_headers := hs }

/-- The `Configuration` struct of the source: base path, built client,
default namespace. -/
structure Configuration where
  base_path : String
  client : ClientBuilderState
  default_ns : String
deriving Repr, DecidableEq

/-- `Configuration::with_default_ns`. -/
def Configuration.with_default_ns (base_path : String)
    (client : ClientBuilderState) (default_ns : String) : Configuration :=
  ⟨base_path, client, default_ns⟩

/-- `Configuration::new`: delegates to `with_default_ns` with the literal
namespace `"default"`. -/
def Configuration.new (base_path : String) (client : ClientBuilderState) :
    Configuration :=
  Configuration.with_default_ns base_path client "default"

/-- A byte of an HTTP header value accepted by
`http::HeaderValue::from_str`: horizontal tab, or a visible byte that is
not DEL.  Characters above 127 encode to UTF-8 bytes that are all
accepted, so the check is per character. -/
def validHeaderChar (c : Char) : Bool :=
  c.toNat == 9 || (32 ≤ c.toNat && c.toNat != 127)

/-- `header::HeaderValue::from_str`: succeeds exactly when every character
is a valid header byte. -/
def headerValueFromStr (s : String) : Option String :=
  if s.data.all validHeaderChar then some s else none

/-- The standard base64 alphabet. -/
def b64alphabet : List Char :=
  "ABCDEFGHIJKLMNOPQRSTUVWXYZabcdefghijklmnopqrstuvwxyz0123456789+/".data

/-- The base64 alphabet character for a sextet (standard alphabet). -/
def b64char (n : Nat) : Char :=
  b64alphabet.getD n 'A'

/-- Encode a block of up to three bytes into four base64 characters with
padding. -/
def b64block : List Nat → List Char
  | [a] => [b64char (a / 4), b64char ((a % 4) * 16), '=', '=']
  | [a, b] => [b64char (a / 4), b64char ((a % 4) * 16 + b / 16),
               b64char ((b % 16) * 4), '=']
  | [a, b, c] => [b64char (a / 4), b64char ((a % 4) * 16 + b / 16),
                  b64char ((b % 16) * 4 + c / 64), b64char (c % 64)]
  | _ => []

/-- Encode a byte list in standard base64. -/
def b64bytes : List Nat → List Char
  | [] => []
  | a :: b :: c :: rest => b64block [a, b, c] ++ b64bytes rest
  | bs => b64block bs

/-- The UTF-8 encoding of a single character as byte values. -/
def utf8Bytes (c : Char) : List Nat :=
  let n := c.toNat
  if n < 128 then [n]
  else if n < 2048 then [192 + n / 64, 128 + n % 64]
  else if n < 65536 then
    [224 + n / 4096, 128 + (n / 64) % 64, 128 + n % 64]
  else
    [240 + n / 262144, 128 + (n / 4096) % 64, 128 + (n / 64) % 64,
      128 + n % 64]

/-- The UTF-8 byte values of a string. -/
def strBytes (s : String) : List Nat :=
  s.data.flatMap utf8Bytes

/-- `base64::encode` of a string's UTF-8 bytes. -/
def base64encode (s : String) : String :=
  String.mk (b64bytes (strBytes s))

instance {α : Type} [DecidableEq α] : DecidableEq (Except ErrorKind α) :=
  fun a b =>
    match a, b with
    | .ok x, .ok y =>
      if h : x = y then .isTrue (by rw [h]) else .isFalse (by simpa using h)
    | .error e1, .error e2 =>
      if h : e1 = e2 then .isTrue (by rw [h]) else .isFalse (by simpa using h)
    | .ok _, .error _ => .isFalse (by simp)
    | .error _, .ok _ => .isFalse (by simp)

/-- Turn an optional value into a `Result`, the `ok_or`/`context` idiom. -/
def okOr (e : ErrorKind) : Option α → Except ErrorKind α
  | some a => .ok a
  | none => .error e

/-- Modelled from the spec: `utils::data_or_file` (source file absent) —
`resolve_from_file_or_value` semantics: the inline value wins over the
file if both are given; an absent pair is an error, as is an unreadable
file. -/
def data_or_file (w : World) (data file : Option String) :
    Except ErrorKind String :=
  match data, file with
  | some d, _ => .ok d
  | none, some f => okOr (.KubeConfig "Failed to get data or file") (w.readFile f)
  | none, none => .error (.KubeConfig "Failed to get data or file")

/-- Modelled from the spec: `utils::data_or_file_with_base64`
(source file absent) — inline base64 data wins over a file path; the data
is base64-decoded (malformed encoding is a TLS-material error), file
contents are read as-is. -/
def data_or_file_with_base64 (w : World) (data file : Option String) :
    Except ErrorKind String :=
  match data, file with
  | some d, _ => okOr .SslError (w.b64decode d)
  | none, some f => okOr (.KubeConfig "Failed to get data or file") (w.readFile f)
  | none, none => .error (.KubeConfig "Failed to get data or file")

/-- Modelled from the spec: `KubeConfigLoader::ca_bundle` (source file
absent) — `resolve_ca_bundle`: prefers inline base64 data over a file path
when both are present; decodes base64 then parses as one or more
certificates; fails on malformed encoding, not on absence (`none`). -/
def ca_bundle (w : World) (cluster : Cluster) :
    Option (Except ErrorKind (List String)) :=
  match cluster.certificate_authority_data, cluster.certificate_authority with
  | some d, _ =>
    some (do
      let bytes ← okOr ErrorKind.SslError (w.b64decode d)
      okOr .SslError (w.parseCerts bytes))
  | none, some f =>
    some (do
      let bytes ← okOr (ErrorKind.KubeConfig "Failed to get data or file")
        (w.readFile f)
      okOr .SslError (w.parseCerts bytes))
  | none, none => none

/-- Modelled from the spec: `KubeConfigLoader::p12` (source file absent) —
`resolve_client_identity`: builds a combined certificate+private-key
bundle from inline data or files (cert and key must both resolve or the
operation fails), packaged with the supplied passphrase. -/
def p12 (w : World) (user : AuthInfo) (password : String) :
    Except ErrorKind String := do
  let cert ← data_or_file_with_base64 w user.client_certificate_data
    user.client_certificate
  let key ← data_or_file_with_base64 w user.client_key_data user.client_key
  okOr .SslError (w.p12pack password cert key)

/-- Lines 107–120 of `mod.rs`: resolve the token variable.  The user's
direct `token` field if present; otherwise, when an exec plugin is
configured, invoke it (propagating its failure), require a `status` in the
response, and take `status.token`.  Returns the token option together with
the number of exec-plugin invocations performed. -/
def tokenStep (w : World) (user : AuthInfo) :
    Except ErrorKind (Option String × Nat) :=
  match user.token with
  | some token => .ok (some token, 0)
  | none =>
    match user.exec with
    | some exec =>
      match w.execRun exec with
      | .error e => .error (.KubeConfig e)
      | .ok creds =>
        match creds.status with
        | none =>
          .error (.KubeConfig "exec-plugin response did not contain a status")
        | some status => .ok (status.token, 1)
    | none => .ok (none, 0)

/-- Lines 124–130 of `mod.rs`: when the cluster yields a CA bundle, add
every decoded certificate as a trusted root, converting each through
`to_der` and `Certificate::from_der` (each failure is `SslError`). -/
def addRootCerts (w : World) (bundle : List String)
    (cb : ClientBuilderState) : Except ErrorKind ClientBuilderState :=
  match bundle with
  | [] => .ok cb
  | ca :: rest => do
    let der ← okOr ErrorKind.SslError (w.toDer ca)
    let cert ← okOr ErrorKind.SslError (w.fromDer der)
    addRootCerts w rest (cb.add_root_certificate cert)

/-- Lines 124–130 of `mod.rs`: the CA-bundle stage of the builder. -/
def caStep (w : World) (cluster : Cluster) (cb : ClientBuilderState) :
    Except ErrorKind ClientBuilderState :=
  match ca_bundle w cluster with
  | some bres => do
    let bundle ← bres
    addRootCerts w bundle cb
  | none => .ok cb

/-- Lines 131–143 of `mod.rs`: the identity stage.  On a resolved PKCS12
bundle, convert to DER and to a transport identity (each failure a hard
`SslError`) and set it; on any `p12` failure, silently skip the identity
and, only if the cluster explicitly sets `insecure_skip_tls_verify =
true`, set `danger_accept_invalid_certs`. -/
def identityStep (w : World) (loader : KubeConfigLoader)
    (cb : ClientBuilderState) : Except ErrorKind ClientBuilderState :=
  match p12 w loader.user " " with
  | .ok bundle => do
    let der ← okOr ErrorKind.SslError (w.p12ToDer bundle)
    let idn ← okOr ErrorKind.SslError (w.identityFromDer der " ")
    .ok (cb.set_identity idn)
  | .error _ =>
    if loader.cluster.insecure_skip_tls_verify = some true then
      .ok (cb.set_danger true)
    else
      .ok cb

/-- Lines 145–167 of `mod.rs`: the authorization-header stage.  A token
resolved by `data_or_file` over the token variable and `token_file` yields
a Bearer header; otherwise, when both username and password are present, a
Basic header of base64(`user:pass`); otherwise no header.  A header value
rejected by `HeaderValue::from_str` is a hard error. -/
def headerStep (w : World) (token : Option String) (user : AuthInfo) :
    Except ErrorKind (List (String × String)) :=
  match data_or_file w token user.token_file, user.username, user.password with
  | .ok tok, _, _ => do
    let hv ← okOr (ErrorKind.KubeConfig "Invalid bearer token")
      (headerValueFromStr ("Bearer " ++ tok))
    .ok [("authorization", hv)]
  | .error _, some u, some p => do
    let encoded := base64encode (u ++ ":" ++ p)
    let hv ← okOr (ErrorKind.KubeConfig "Invalid bearer token")
      (headerValueFromStr ("Basic " ++ encoded))
    .ok [("authorization", hv)]
  | .error _, _, _ => .ok []

/-- The outcome of `create_client_builder`: the accumulated builder, the
loader it returns alongside, and how many times the exec plugin was
invoked during the build. -/
structure BuildResult where
  builder : ClientBuilderState
  loader : KubeConfigLoader
  execInvocations : Nat
deriving Repr, DecidableEq

/-- `create_client_builder` (lines 100–171 of `mod.rs`), from the loaded
`KubeConfigLoader` on: resolve the token variable (invoking the exec
plugin when needed), start a fresh client builder, add CA roots, resolve
the client identity with the insecure fallback, then build the default
headers. -/
def create_client_builder (w : World) (loader : KubeConfigLoader) :
    Except ErrorKind BuildResult := do
  let tn ← tokenStep w loader.user
  let cb1 ← caStep w loader.cluster ClientBuilderState.new
  let cb2 ← identityStep w loader cb1
  let headers ← headerStep w tn.1 loader.user
  .ok ⟨cb2.set_default_headers headers, loader, tn.2⟩

/-- `load_kube_config_with` (lines 76–85 of `mod.rs`), from the loaded
`KubeConfigLoader` on: run `create_client_builder`, build the client, and
wrap it with `Configuration::new` over the selected cluster's server. -/
def load_kube_config_with (w : World) (loader : KubeConfigLoader) :
    Except ErrorKind Configuration := do
  let result ← create_client_builder w loader
  .ok (Configuration.new result.loader.cluster.server result.builder)

/-- Modelled from the spec: the service-host environment variable name of
`incluster_config` (source file absent), the conventional cluster-injected
name. -/
def SERVICE_HOSTENV : String := "KUBERNETES_SERVICE_HOST"

/-- Modelled from the spec: the service-port environment variable name of
`incluster_config` (source file absent). -/
def SERVICE_PORTENV : String := "KUBERNETES_SERVICE_PORT"

/-- Modelled from the spec: the fixed mounted CA-certificate path of the
service-account mount layout. -/
def SERVICE_CERTFILE : String :=
  "/var/run/secrets/kubernetes.io/serviceaccount/ca.crt"

/-- Modelled from the spec: the fixed mounted bearer-token path. -/
def SERVICE_TOKENFILE : String :=
  "/var/run/secrets/kubernetes.io/serviceaccount/token"

/-- Modelled from the spec: the fixed mounted namespace path. -/
def SERVICE_DEFAULT_NS : String :=
  "/var/run/secrets/kubernetes.io/serviceaccount/namespace"

/-- Modelled from the spec: `incluster_config::kube_server` (source file
absent) — the server URL built from the two required environment
variables; `none` when either is unset. -/
def kube_server (w : World) : Option String :=
  match w.getEnv SERVICE_HOSTENV, w.getEnv SERVICE_PORTENV with
  | some host, some port => some ("https://" ++ host ++ ":" ++ port)
  | _, _ => none

/-- Modelled from the spec: `incluster_config::load_cert` (source file
absent) — the CA certificate read and parsed from the fixed mounted
path. -/
def load_cert (w : World) : Option String :=
  (w.readFile SERVICE_CERTFILE).bind w.parseCert

/-- Modelled from the spec: `incluster_config::load_token` (source file
absent) — the bearer token read from the fixed mounted path. -/
def load_token (w : World) : Option String :=
  w.readFile SERVICE_TOKENFILE

/-- Modelled from the spec: `incluster_config::load_default_ns` (source
file absent) — the namespace read from the fixed mounted path. -/
def load_default_ns (w : World) : Option String :=
  w.readFile SERVICE_DEFAULT_NS

/-- `incluster_config` (lines 183–219 of `mod.rs`): server URL from the
two required environment variables (their absence is one error naming both
variables), CA certificate, token and namespace each from its fixed
mounted file with its own distinct error, Bearer header from the token,
and a configuration whose namespace comes from the mounted file. -/
def incluster_config (w : World) : Except ErrorKind Configuration := do
  let server ← okOr
    (ErrorKind.KubeConfig ("Unable to load incluster config, " ++
      SERVICE_HOSTENV ++ " and " ++ SERVICE_PORTENV ++ " must be defined"))
    (kube_server w)
  let ca ← okOr ErrorKind.SslError (load_cert w)
  let der ← okOr ErrorKind.SslError (w.toDer ca)
  let req_ca ← okOr ErrorKind.SslError (w.fromDer der)
  let token ← okOr (ErrorKind.KubeConfig "Unable to load in cluster token")
    (load_token w)
  let default_ns ← okOr
    (ErrorKind.KubeConfig "Unable to load incluster default namespace")
    (load_default_ns w)
  let hv ← okOr (ErrorKind.KubeConfig "Invalid bearer token")
    (headerValueFromStr ("Bearer " ++ token))
  let cb := ((ClientBuilderState.new.add_root_certificate req_ca).set_default_headers
    [("authorization", hv)])
  .ok (Configuration.with_default_ns server cb default_ns)

/-- Whether an `Except` is an error (the resolution attempt failed). -/
def isError : Except ErrorKind α → Bool
  | .error _ => true
  | .ok _ => false

/-- Specification-side description of the CA loop body: each certificate
of the bundle converted through `to_der` and `Certificate::from_der`, in
order, any failure being `SslError`. -/
def certsRoundtrip (w : World) : List String → Except ErrorKind (List String)
  | [] => .ok []
  | ca :: rest => do
    let der ← okOr ErrorKind.SslError (w.toDer ca)
    let cert ← okOr ErrorKind.SslError (w.fromDer der)
    let cs ← certsRoundtrip w rest
    .ok (cert :: cs)

/-! ### Concrete fixtures

Concrete worlds, users and clusters used by the witnesses and
counterexamples below.  The oracle functions are small executable stand-ins:
base64-decoding fails exactly on the marker string `"BAD"`, the codecs are
otherwise injective taggings, and the file system holds a token file. -/

/-- A concrete exec-plugin configuration. -/
def execCfgEx : ExecConfig :=
  ⟨"aws-iam-authenticator", ["token"], [("CLUSTER", "demo")], "v1alpha1"⟩

/-- The base concrete world: token file `tf` holds `filetoken`, base64
decoding fails only on `"BAD"`, the certificate codecs succeed, and the
exec plugin returns a credential whose status token is `exectoken`. -/
def wBase : World where
  readFile := fun f => if f = "tf" then some "filetoken" else none
  getEnv := fun _ => none
  b64decode := fun s => if s = "BAD" then none else some s
  parseCerts := fun s => some [s]
  parseCert := fun s => some s
  toDer := fun s => some s
  fromDer := fun s => some s
  p12pack := fun _ c k => some (c ++ "|" ++ k)
  p12ToDer := fun s => some s
  identityFromDer := fun s _ => some s
  execRun := fun _ => .ok ⟨some ⟨some "exectoken", none, none⟩⟩

/-- World whose exec plugin responds with a status that has no token. -/
def wExecNoToken : World :=
  { wBase with execRun := fun _ => .ok ⟨some ⟨none, none, none⟩⟩ }

/-- World whose exec plugin responds without a `status` field. -/
def wExecNoStatus : World :=
  { wBase with execRun := fun _ => .ok ⟨none⟩ }

/-- A user with no direct token but both a token file and an exec plugin
configured. -/
def userFileExec : AuthInfo :=
  ⟨none, some "tf", none, none, none, none, none, none, some execCfgEx⟩

/-- A user with only a direct token `abc123`. -/
def userTok : AuthInfo :=
  ⟨some "abc123", none, none, none, none, none, none, none, none⟩

/-- A user with a direct token and present-but-malformed client
certificate data. -/
def userBadCert : AuthInfo :=
  ⟨some "tok", none, none, none, none, some "BAD", none, some "KEY", none⟩

/-- A user with only username and password. -/
def userBasic : AuthInfo :=
  ⟨none, none, some "u1", some "p1", none, none, none, none, none⟩

/-- A user with no credentials at all. -/
def userAnon : AuthInfo :=
  ⟨none, none, none, none, none, none, none, none, none⟩

/-- A user whose direct token contains a byte that is invalid in an HTTP
header value. -/
def userBadHeader : AuthInfo :=
  ⟨some "bad\ntok", none, none, none, none, none, none, none, none⟩

/-- A plain cluster with no CA material and no insecure flag. -/
def clusterPlain : Cluster := ⟨"https://10.0.0.1", none, none, none⟩

/-- A cluster with both inline CA data and a CA file path configured. -/
def clusterBothCA : Cluster :=
  ⟨"https://10.0.0.1", some "cafile", some "CAINLINE", none⟩

/-- A cluster that explicitly opts into skipping TLS verification. -/
def clusterInsecure : Cluster := ⟨"https://10.0.0.1", none, none, some true⟩

/-- Loader: token-file-plus-exec user on the plain cluster. -/
def loaderFileExec : KubeConfigLoader := ⟨clusterPlain, userFileExec, "default"⟩

/-- Loader: direct-token user on the plain cluster. -/
def loaderTok : KubeConfigLoader := ⟨clusterPlain, userTok, "default"⟩

/-- Loader: direct-token user on the both-CA cluster. -/
def loaderTokCA : KubeConfigLoader := ⟨clusterBothCA, userTok, "default"⟩

/-- Loader: malformed-certificate user on the plain cluster. -/
def loaderBadCert : KubeConfigLoader := ⟨clusterPlain, userBadCert, "default"⟩

/-- Loader: malformed-certificate user on the insecure cluster. -/
def loaderBadCertInsecure : KubeConfigLoader :=
  ⟨clusterInsecure, userBadCert, "default"⟩

/-- Loader: direct-token user, context namespace `myns`. -/
def loaderNs : KubeConfigLoader := ⟨clusterPlain, userTok, "myns"⟩

/-- Loader: basic-auth user on the plain cluster. -/
def loaderBasic : KubeConfigLoader := ⟨clusterPlain, userBasic, "default"⟩

/-- Loader: anonymous user on the plain cluster. -/
def loaderAnon : KubeConfigLoader := ⟨clusterPlain, userAnon, "default"⟩

/-- Loader: invalid-header-token user on the plain cluster. -/
def loaderBadHeader : KubeConfigLoader := ⟨clusterPlain, userBadHeader, "default"⟩

/-- In-cluster world: both environment variables set, CA and namespace
files mounted, token file missing. -/
def wInclusterNoToken : World :=
  { wBase with
    getEnv := fun v =>
      if v = SERVICE_HOSTENV then some "10.0.0.1"
      else if v = SERVICE_PORTENV then some "443"
      else none,
    readFile := fun f =>
      if f = SERVICE_CERTFILE then some "CERTPEM"
      else if f = SERVICE_DEFAULT_NS then some "podns"
      else none }

/-- In-cluster world with no environment variables set at all. -/
def wInclusterNoEnv : World :=
  { wInclusterNoToken with getEnv := fun _ => none }

/-- A file-system oracle that finds no file at all. -/
def gNone : String → Option String := fun _ => none

/-- A user with only a token file configured. -/
def userFileOnly : AuthInfo :=
  ⟨none, some "tf", none, none, none, none, none, none, none⟩

/-- Loader: token-file-only user on the plain cluster. -/
def loaderFileOnly : KubeConfigLoader := ⟨clusterPlain, userFileOnly, "default"⟩

/-- The build outcome for `wBase` and `loaderTok`. -/
def rTok : BuildResult :=
  ⟨⟨[], none, false, [("authorization", "Bearer abc123")]⟩, loaderTok, 0⟩

/-- The build outcome for `wBase` and `loaderTokCA`. -/
def rTokCA : BuildResult :=
  ⟨⟨["CAINLINE"], none, false, [("authorization", "Bearer abc123")]⟩,
    loaderTokCA, 0⟩

/-- The build outcome for `wBase` and `loaderFileExec`: the exec plugin
ran once and its token made the header. -/
def rFileExec : BuildResult :=
  ⟨⟨[], none, false, [("authorization", "Bearer exectoken")]⟩,
    loaderFileExec, 1⟩

/-- The build outcome for `wExecNoToken` and `loaderFileExec`: the exec
plugin ran once, yielded no token, and the token file filled in. -/
def rFileExecFallback : BuildResult :=
  ⟨⟨[], none, false, [("authorization", "Bearer filetoken")]⟩,
    loaderFileExec, 1⟩

/-- The build outcome for `wBase` and `loaderFileOnly`. -/
def rFileOnly : BuildResult :=
  ⟨⟨[], none, false, [("authorization", "Bearer filetoken")]⟩,
    loaderFileOnly, 0⟩

/-- The build outcome for `wBase` and `loaderBadCert`. -/
def rBadCert : BuildResult :=
  ⟨⟨[], none, false, [("authorization", "Bearer tok")]⟩, loaderBadCert, 0⟩

/-- The build outcome for `wBase` and `loaderBadCertInsecure`. -/
def rBadCertInsecure : BuildResult :=
  ⟨⟨[], none, true, [("authorization", "Bearer tok")]⟩,
    loaderBadCertInsecure, 0⟩

/-- The configuration produced for `wBase` and `loaderNs`. -/
def cfgNs : Configuration :=
  ⟨"https://10.0.0.1",
    ⟨[], none, false, [("authorization", "Bearer abc123")]⟩, "default"⟩

/-- The configuration produced for `wBase` and `loaderTok`. -/
def cfgTok : Configuration :=
  ⟨"https://10.0.0.1",
    ⟨[], none, false, [("authorization", "Bearer abc123")]⟩, "default"⟩

/-! ### General lemmas about the stages -/

theorem bindOk {α β : Type} (a : α) (f : α → Except ErrorKind β) :
    (Except.ok a : Except ErrorKind α) >>= f = f a := rfl

theorem bindError {α β : Type} (e : ErrorKind) (f : α → Except ErrorKind β) :
    (Except.error e : Except ErrorKind α) >>= f = Except.error e := rfl

theorem okOr_ok {α : Type} {e : ErrorKind} {o : Option α} {a : α} :
    okOr e o = .ok a ↔ o = some a := by
  cases o <;> simp [okOr]

theorem okOr_error {α : Type} {e e2 : ErrorKind} {o : Option α} :
    okOr e o = .error e2 ↔ (o = none ∧ e2 = e) := by
  cases o <;> simp [okOr, eq_comm]

theorem create_client_builder_ok_iff {w : World} {loader : KubeConfigLoader}
    {r : BuildResult} :
    create_client_builder w loader = .ok r ↔
    ∃ tn cb1 cb2 hs,
      tokenStep w loader.user = .ok tn ∧
      caStep w loader.cluster ClientBuilderState.new = .ok cb1 ∧
      identityStep w loader cb1 = .ok cb2 ∧
      headerStep w tn.1 loader.user = .ok hs ∧
      r = ⟨cb2.set_default_headers hs, loader, tn.2⟩ := by
  unfold create_client_builder
  cases h1 : tokenStep w loader.user with
  | error e => simp [bindError, h1]
  | ok tn =>
    rw [bindOk]
    cases h2 : caStep w loader.cluster ClientBuilderState.new with
    | error e => simp [bindError, h2]
    | ok cb1 =>
      rw [bindOk]
      cases h3 : identityStep w loader cb1 with
      | error e => simp [bindError, h3]
      | ok cb2 =>
        rw [bindOk]
        cases h4 : headerStep w tn.1 loader.user with
        | error e => simp [bindError, h3, h4]
        | ok hs => rw [bindOk]; simp [h3, h4]; aesop

theorem create_client_builder_error_tokenStep {w : World}
    {loader : KubeConfigLoader} {e : ErrorKind}
    (h : tokenStep w loader.user = .error e) :
    create_client_builder w loader = .error e := by
  unfold create_client_builder
  rw [h, bindError]

theorem create_client_builder_error_headerStep {w : World}
    {loader : KubeConfigLoader} {tn : Option String × Nat}
    {cb1 cb2 : ClientBuilderState} {e : ErrorKind}
    (h1 : tokenStep w loader.user = .ok tn)
    (h2 : caStep w loader.cluster ClientBuilderState.new = .ok cb1)
    (h3 : identityStep w loader cb1 = .ok cb2)
    (h4 : headerStep w tn.1 loader.user = .error e) :
    create_client_builder w loader = .error e := by
  unfold create_client_builder
  rw [h1, bindOk, h2, bindOk, h3, bindOk, h4, bindError]

theorem addRootCerts_ok_iff {w : World} {bundle : List String}
    {cb cb2 : ClientBuilderState} :
    addRootCerts w bundle cb = .ok cb2 ↔
    ∃ cs, certsRoundtrip w bundle = .ok cs ∧
      cb2 = { cb with root_certificates := cb.root_certificates ++ cs } := by
  induction bundle generalizing cb with
  | nil => simp [addRootCerts, certsRoundtrip, bindOk]; aesop
  | cons ca rest ih =>
    unfold addRootCerts certsRoundtrip
    cases hd : w.toDer ca with
    | none => simp [okOr, bindError]
    | some der =>
      rw [show okOr ErrorKind.SslError (some der) = .ok der from rfl, bindOk,
        bindOk]
      cases hf : w.fromDer der with
      | none => simp [okOr, bindError]
      | some cert =>
        rw [show okOr ErrorKind.SslError (some cert) = .ok cert from rfl,
          bindOk, bindOk, ih]
        constructor
        · rintro ⟨cs, hcs, hcb⟩
          refine ⟨cert :: cs, ?_, ?_⟩
          · rw [hcs, bindOk]
          · simp [hcb, ClientBuilderState.add_root_certificate]
        · rintro ⟨cs, hcs, hcb⟩
          cases hrt : certsRoundtrip w rest with
          | error e => rw [hrt, bindError] at hcs; exact absurd hcs (by simp)
          | ok cs2 =>
            rw [hrt, bindOk] at hcs
            refine ⟨cs2, rfl, ?_⟩
            obtain rfl : cs = cert :: cs2 := by
              simpa using hcs.symm
            simp [hcb, ClientBuilderState.add_root_certificate]

theorem addRootCerts_fields {w : World} {bundle : List String}
    {cb cb2 : ClientBuilderState}
    (h : addRootCerts w bundle cb = .ok cb2) :
    cb2.identity = cb.identity ∧
    cb2.danger_accept_invalid_certs = cb.danger_accept_invalid_certs ∧
    cb2.default_headers = cb.default_headers := by
  obtain ⟨cs, -, rfl⟩ := addRootCerts_ok_iff.mp h
  exact ⟨rfl, rfl, rfl⟩

theorem caStep_eq_none {w : World} {cluster : Cluster}
    (hb : ca_bundle w cluster = none) (cb : ClientBuilderState) :
    caStep w cluster cb = .ok cb := by
  unfold caStep; rw [hb]

theorem caStep_eq_some {w : World} {cluster : Cluster}
    {bres : Except ErrorKind (List String)}
    (hb : ca_bundle w cluster = some bres) (cb : ClientBuilderState) :
    caStep w cluster cb = bres >>= fun bundle => addRootCerts w bundle cb := by
  unfold caStep; rw [hb]

theorem caStep_fields {w : World} {cluster : Cluster}
    {cb cb2 : ClientBuilderState} (h : caStep w cluster cb = .ok cb2) :
    cb2.identity = cb.identity ∧
    cb2.danger_accept_invalid_certs = cb.danger_accept_invalid_certs ∧
    cb2.default_headers = cb.default_headers := by
  cases hb : ca_bundle w cluster with
  | none =>
    rw [caStep_eq_none hb] at h
    obtain rfl : cb = cb2 := by simpa using h
    exact ⟨rfl, rfl, rfl⟩
  | some bres =>
    rw [caStep_eq_some hb] at h
    cases bres with
    | error e => rw [bindError] at h; exact absurd h (by simp)
    | ok bundle => rw [bindOk] at h; exact addRootCerts_fields h

theorem caStep_roots_of_bundle {w : World} {cluster : Cluster}
    {cb cb2 : ClientBuilderState} {certs : List String}
    (hb : ca_bundle w cluster = some (.ok certs))
    (h : caStep w cluster cb = .ok cb2) :
    ∃ cs, certsRoundtrip w certs = .ok cs ∧
      cb2.root_certificates = cb.root_certificates ++ cs := by
  rw [caStep_eq_some hb, bindOk] at h
  obtain ⟨cs, hcs, rfl⟩ := addRootCerts_ok_iff.mp h
  exact ⟨cs, hcs, rfl⟩

theorem identityStep_eq_error {w : World} {loader : KubeConfigLoader}
    {e : ErrorKind} (hp : p12 w loader.user " " = .error e)
    (cb : ClientBuilderState) :
    identityStep w loader cb =
      if loader.cluster.insecure_skip_tls_verify = some true then
        .ok (cb.set_danger true) else .ok cb := by
  unfold identityStep; rw [hp]

theorem identityStep_eq_ok {w : World} {loader : KubeConfigLoader}
    {bundle : String} (hp : p12 w loader.user " " = .ok bundle)
    (cb : ClientBuilderState) :
    identityStep w loader cb = (do
      let der ← okOr ErrorKind.SslError (w.p12ToDer bundle)
      let idn ← okOr ErrorKind.SslError (w.identityFromDer der " ")
      .ok (cb.set_identity idn)) := by
  unfold identityStep; rw [hp]

theorem identityStep_of_p12_error {w : World} {loader : KubeConfigLoader}
    {cb : ClientBuilderState} {e : ErrorKind}
    (h : p12 w loader.user " " = .error e) :
    identityStep w loader cb =
      .ok (if loader.cluster.insecure_skip_tls_verify = some true then
        cb.set_danger true else cb) := by
  rw [identityStep_eq_error h]
  by_cases hins : loader.cluster.insecure_skip_tls_verify = some true <;>
    simp [hins]

theorem identityStep_ok_of_p12_ok {w : World} {loader : KubeConfigLoader}
    {cb cb2 : ClientBuilderState} {bundle : String}
    (hp : p12 w loader.user " " = .ok bundle)
    (h : identityStep w loader cb = .ok cb2) :
    ∃ der idn, w.p12ToDer bundle = some der ∧
      w.identityFromDer der " " = some idn ∧ cb2 = cb.set_identity idn := by
  rw [identityStep_eq_ok hp] at h
  cases hd : w.p12ToDer bundle with
  | none => rw [hd] at h; simp [okOr, bindError] at h
  | some der =>
    rw [hd] at h
    rw [show okOr ErrorKind.SslError (some der) = .ok der from rfl, bindOk]
      at h
    cases hi : w.identityFromDer der " " with
    | none => rw [hi] at h; simp [okOr, bindError] at h
    | some idn =>
      rw [hi] at h
      rw [show okOr ErrorKind.SslError (some idn) = .ok idn from rfl, bindOk]
        at h
      exact ⟨der, idn, rfl, hi, by simpa using h.symm⟩

theorem identityStep_fields {w : World} {loader : KubeConfigLoader}
    {cb cb2 : ClientBuilderState} (h : identityStep w loader cb = .ok cb2) :
    cb2.root_certificates = cb.root_certificates ∧
    cb2.default_headers = cb.default_headers := by
  cases hp : p12 w loader.user " " with
  | ok bundle =>
    obtain ⟨der, idn, -, -, rfl⟩ := identityStep_ok_of_p12_ok hp h
    exact ⟨rfl, rfl⟩
  | error e =>
    rw [identityStep_of_p12_error hp] at h
    obtain rfl : _ = cb2 := by simpa using h
    by_cases hins : loader.cluster.insecure_skip_tls_verify = some true <;>
      simp [hins, ClientBuilderState.set_danger]

theorem identityStep_danger {w : World} {loader : KubeConfigLoader}
    {cb cb2 : ClientBuilderState} (h : identityStep w loader cb = .ok cb2)
    (h0 : cb.danger_accept_invalid_certs = false) :
    cb2.danger_accept_invalid_certs = true ↔
      isError (p12 w loader.user " ") = true ∧
      loader.cluster.insecure_skip_tls_verify = some true := by
  cases hp : p12 w loader.user " " with
  | ok bundle =>
    obtain ⟨der, idn, -, -, rfl⟩ := identityStep_ok_of_p12_ok hp h
    simp [ClientBuilderState.set_identity, h0, isError]
  | error e =>
    rw [identityStep_of_p12_error hp] at h
    obtain rfl : _ = cb2 := by simpa using h
    by_cases hins : loader.cluster.insecure_skip_tls_verify = some true <;>
      simp [hins, ClientBuilderState.set_danger, h0, isError]

theorem tokenStep_of_token {w : World} {user : AuthInfo} {t : String}
    (h : user.token = some t) : tokenStep w user = .ok (some t, 0) := by
  unfold tokenStep; rw [h]

theorem tokenStep_of_noexec {w : World} {user : AuthInfo}
    (h1 : user.token = none) (h2 : user.exec = none) :
    tokenStep w user = .ok (none, 0) := by
  unfold tokenStep; rw [h1, h2]

theorem tokenStep_of_exec {w : World} {user : AuthInfo} {ex : ExecConfig}
    {creds : ExecCredential} {st : ExecStatus}
    (h1 : user.token = none) (h2 : user.exec = some ex)
    (h3 : w.execRun ex = .ok creds) (h4 : creds.status = some st) :
    tokenStep w user = .ok (st.token, 1) := by
  unfold tokenStep
  rw [h1, h2]
  simp [h3, h4]

theorem tokenStep_of_exec_error {w : World} {user : AuthInfo}
    {ex : ExecConfig} {e : String}
    (h1 : user.token = none) (h2 : user.exec = some ex)
    (h3 : w.execRun ex = .error e) :
    tokenStep w user = .error (.KubeConfig e) := by
  unfold tokenStep
  rw [h1, h2]
  simp [h3]

theorem tokenStep_of_exec_nostatus {w : World} {user : AuthInfo}
    {ex : ExecConfig} {creds : ExecCredential}
    (h1 : user.token = none) (h2 : user.exec = some ex)
    (h3 : w.execRun ex = .ok creds) (h4 : creds.status = none) :
    tokenStep w user =
      .error (.KubeConfig "exec-plugin response did not contain a status") := by
  unfold tokenStep
  rw [h1, h2]
  simp [h3, h4]

theorem tokenStep_count {w : World} {user : AuthInfo}
    {tn : Option String × Nat} (h : tokenStep w user = .ok tn) :
    tn.2 ≤ 1 := by
  rcases ht : user.token with _ | t
  · rcases hx : user.exec with _ | ex
    · rw [tokenStep_of_noexec ht hx] at h
      obtain rfl : (none, 0) = tn := by simpa using h
      simp
    · rcases hr : w.execRun ex with e | creds
      · rw [tokenStep_of_exec_error ht hx hr] at h; simp at h
      · rcases hs : creds.status with _ | st
        · rw [tokenStep_of_exec_nostatus ht hx hr hs] at h; simp at h
        · rw [tokenStep_of_exec ht hx hr hs] at h
          obtain rfl : (st.token, 1) = tn := by simpa using h
          simp
  · rw [tokenStep_of_token ht] at h
    obtain rfl : (some t, 0) = tn := by simpa using h
    simp

theorem tokenStep_count_one_iff {w : World} {user : AuthInfo}
    {tn : Option String × Nat} (h : tokenStep w user = .ok tn) :
    tn.2 = 1 ↔ (user.token = none ∧ user.exec ≠ none) := by
  rcases ht : user.token with _ | t
  · rcases hx : user.exec with _ | ex
    · rw [tokenStep_of_noexec ht hx] at h
      obtain rfl : (none, 0) = tn := by simpa using h
      simp [ht, hx]
    · rcases hr : w.execRun ex with e | creds
      · rw [tokenStep_of_exec_error ht hx hr] at h; simp at h
      · rcases hs : creds.status with _ | st
        · rw [tokenStep_of_exec_nostatus ht hx hr hs] at h; simp at h
        · rw [tokenStep_of_exec ht hx hr hs] at h
          obtain rfl : (st.token, 1) = tn := by simpa using h
          simp [ht, hx]
  · rw [tokenStep_of_token ht] at h
    obtain rfl : (some t, 0) = tn := by simpa using h
    simp [ht]

theorem data_or_file_some (w : World) (t : String) (f : Option String) :
    data_or_file w (some t) f = .ok t := rfl

theorem data_or_file_none_some (w : World) (f : String) :
    data_or_file w none (some f) =
      okOr (.KubeConfig "Failed to get data or file") (w.readFile f) := rfl

theorem headerValueFromStr_some {s hv : String}
    (h : headerValueFromStr s = some hv) : hv = s := by
  unfold headerValueFromStr at h
  split at h <;> simp_all

theorem headerValueFromStr_of_valid {s : String}
    (h : s.data.all validHeaderChar = true) :
    headerValueFromStr s = some s := by
  unfold headerValueFromStr
  rw [if_pos h]

theorem headerStep_of_token {w : World} {token : Option String}
    {user : AuthInfo} {tok : String}
    (h : data_or_file w token user.token_file = .ok tok) :
    headerStep w token user = (do
      let hv ← okOr (ErrorKind.KubeConfig "Invalid bearer token")
        (headerValueFromStr ("Bearer " ++ tok))
      .ok [("authorization", hv)]) := by
  unfold headerStep; rw [h]

theorem headerStep_of_basic {w : World} {token : Option String}
    {user : AuthInfo} {u p : String} {e : ErrorKind}
    (h : data_or_file w token user.token_file = .error e)
    (hu : user.username = some u) (hp : user.password = some p) :
    headerStep w token user = (do
      let hv ← okOr (ErrorKind.KubeConfig "Invalid bearer token")
        (headerValueFromStr ("Basic " ++ base64encode (u ++ ":" ++ p)))
      .ok [("authorization", hv)]) := by
  unfold headerStep; rw [h, hu, hp]

theorem headerStep_of_anonymous {w : World} {token : Option String}
    {user : AuthInfo} {e : ErrorKind}
    (h : data_or_file w token user.token_file = .error e)
    (hup : user.username = none ∨ user.password = none) :
    headerStep w token user = .ok [] := by
  unfold headerStep
  rcases hup with hu | hp
  · rw [h, hu]
  · rcases hu2 : user.username with _ | u
    · rw [h]
    · rw [h, hp]

theorem headerStep_token_ok {w : World} {token : Option String}
    {user : AuthInfo} {tok : String} {hs : List (String × String)}
    (h1 : data_or_file w token user.token_file = .ok tok)
    (h2 : headerStep w token user = .ok hs) :
    hs = [("authorization", "Bearer " ++ tok)] := by
  rw [headerStep_of_token h1] at h2
  cases hv : headerValueFromStr ("Bearer " ++ tok) with
  | none => rw [hv] at h2; simp [okOr, bindError] at h2
  | some v =>
    rw [hv] at h2
    rw [show okOr (ErrorKind.KubeConfig "Invalid bearer token") (some v) =
      .ok v from rfl, bindOk] at h2
    obtain rfl : v = "Bearer " ++ tok := headerValueFromStr_some hv
    simpa using h2.symm

theorem headerStep_token_invalid {w : World} {token : Option String}
    {user : AuthInfo} {tok : String}
    (h1 : data_or_file w token user.token_file = .ok tok)
    (h2 : headerValueFromStr ("Bearer " ++ tok) = none) :
    headerStep w token user = .error (.KubeConfig "Invalid bearer token") := by
  rw [headerStep_of_token h1, h2]
  rfl

theorem b64char_valid (n : Nat) : validHeaderChar (b64char n) = true := by
  rcases lt_or_ge n 64 with h | h
  · revert h
    revert n
    decide
  · unfold b64char
    rw [List.getD_eq_default]
    · decide
    · simpa [b64alphabet] using h

theorem b64block_valid (bs : List Nat) :
    (b64block bs).all validHeaderChar = true := by
  unfold b64block
  split <;> simp [b64char_valid] <;> decide

theorem b64bytes_valid (bs : List Nat) :
    (b64bytes bs).all validHeaderChar = true := by
  induction bs using b64bytes.induct with
  | case1 => simp [b64bytes]
  | case2 a b c rest ih =>
    unfold b64bytes
    rw [List.all_append, ih, b64block_valid]
    rfl
  | case3 bs h1 h2 =>
    unfold b64bytes
    split
    · rfl
    · exact absurd rfl (by solve_by_elim)
    · exact b64block_valid _

theorem headerValue_basic (s : String) :
    headerValueFromStr ("Basic " ++ base64encode s) =
      some ("Basic " ++ base64encode s) := by
  apply headerValueFromStr_of_valid
  rw [show ("Basic " ++ base64encode s).data =
    "Basic ".data ++ (base64encode s).data from rfl]
  rw [List.all_append]
  rw [show (base64encode s).data = b64bytes (strBytes s) from rfl]
  rw [b64bytes_valid]
  decide

theorem headerStep_basic_ok {w : World} {token : Option String}
    {user : AuthInfo} {u p : String} {e : ErrorKind}
    (h : data_or_file w token user.token_file = .error e)
    (hu : user.username = some u) (hp : user.password = some p) :
    headerStep w token user =
      .ok [("authorization", "Basic " ++ base64encode (u ++ ":" ++ p))] := by
  rw [headerStep_of_basic h hu hp, headerValue_basic]
  rfl

theorem build_headers_of_resolved {w : World} {loader : KubeConfigLoader}
    {tn : Option String × Nat} {tok : String} {r : BuildResult}
    (h1 : tokenStep w loader.user = .ok tn)
    (h2 : data_or_file w tn.1 loader.user.token_file = .ok tok)
    (hr : create_client_builder w loader = .ok r) :
    r.builder.default_headers = [("authorization", "Bearer " ++ tok)] := by
  obtain ⟨tn2, cb1, cb2, hs, g1, g2, g3, g4, rfl⟩ :=
    create_client_builder_ok_iff.mp hr
  obtain rfl : tn = tn2 := by rw [h1] at g1; simpa using g1
  have := headerStep_token_ok h2 g4
  simpa [ClientBuilderState.set_default_headers] using this

theorem load_kube_config_with_ok_iff {w : World} {loader : KubeConfigLoader}
    {cfg : Configuration} :
    load_kube_config_with w loader = .ok cfg ↔
    ∃ r, create_client_builder w loader = .ok r ∧
      cfg = Configuration.new r.loader.cluster.server r.builder := by
  unfold load_kube_config_with
  cases h : create_client_builder w loader with
  | error e => simp [bindError, h]
  | ok r => rw [bindOk]; simp [h]; aesop

/-! ### The claims -/

/-- C1 is refuted on the code: with no direct `token` but both `token_file`
and `exec` configured, the exec plugin's token wins over the token file's
content.  Concretely, the token file holds `filetoken` while the exec
plugin returns `exectoken`, and the resulting header is
`Bearer exectoken`, not `Bearer filetoken`. -/
theorem c1_counterexample :
    loaderFileExec.user.token = none ∧
    loaderFileExec.user.token_file = some "tf" ∧
    wBase.readFile "tf" = some "filetoken" ∧
    loaderFileExec.user.exec = some execCfgEx ∧
    (create_client_builder wBase loaderFileExec).map
      (fun r => r.builder.default_headers) =
      .ok [("authorization", "Bearer exectoken")] ∧
    (create_client_builder wBase loaderFileExec).map
      (fun r => r.builder.default_headers) ≠
      .ok [("authorization", "Bearer filetoken")] := by
  refine ⟨rfl, rfl, by decide, rfl, by decide, by decide⟩

/-- C1 (amended): the Authorization bearer token is resolved as the
user's direct `token` field first; else, when an exec plugin is
configured, the plugin is invoked and its `status.token` is used when
present; else the contents of `token_file`.  For a user with no `token`
but with both `token_file` and `exec` configured, the exec plugin's token
wins when the plugin returns one; `token_file` is only the fallback. -/
theorem c1_token_precedence :
    (∀ (w : World) (loader : KubeConfigLoader) (t : String) (r : BuildResult),
      loader.user.token = some t →
      create_client_builder w loader = .ok r →
      r.builder.default_headers = [("authorization", "Bearer " ++ t)]) ∧
    (∀ (w : World) (loader : KubeConfigLoader) (ex : ExecConfig)
      (creds : ExecCredential) (st : ExecStatus) (te : String)
      (r : BuildResult),
      loader.user.token = none → loader.user.exec = some ex →
      w.execRun ex = .ok creds → creds.status = some st →
      st.token = some te →
      create_client_builder w loader = .ok r →
      r.builder.default_headers = [("authorization", "Bearer " ++ te)]) ∧
    (∀ (w : World) (loader : KubeConfigLoader) (f s : String)
      (r : BuildResult),
      loader.user.token = none → loader.user.exec = none →
      loader.user.token_file = some f → w.readFile f = some s →
      create_client_builder w loader = .ok r →
      r.builder.default_headers = [("authorization", "Bearer " ++ s)]) := by
  refine ⟨?_, ?_, ?_⟩
  · intro w loader t r ht hr
    exact build_headers_of_resolved (tokenStep_of_token ht)
      (data_or_file_some w t loader.user.token_file) hr
  · intro w loader ex creds st te r h1 h2 h3 h4 h5 hr
    have hts := tokenStep_of_exec h1 h2 h3 h4
    rw [h5] at hts
    exact build_headers_of_resolved hts
      (data_or_file_some w te loader.user.token_file) hr
  · intro w loader f s r h1 h2 h3 h4 hr
    have hdf : data_or_file w none loader.user.token_file = .ok s := by
      rw [h3, data_or_file_none_some, h4]
      rfl
    exact build_headers_of_resolved (tokenStep_of_noexec h1 h2) hdf hr

/-- C1 witness: the three precedence clauses at concrete inputs. -/
theorem c1_witness :
    rTok.builder.default_headers = [("authorization", "Bearer " ++ "abc123")] ∧
    rFileExec.builder.default_headers =
      [("authorization", "Bearer " ++ "exectoken")] ∧
    rFileOnly.builder.default_headers =
      [("authorization", "Bearer " ++ "filetoken")] :=
  ⟨c1_token_precedence.1 wBase loaderTok "abc123" rTok rfl (by decide),
   c1_token_precedence.2.1 wBase loaderFileExec execCfgEx
     ⟨some ⟨some "exectoken", none, none⟩⟩ ⟨some "exectoken", none, none⟩
     "exectoken" rFileExec rfl rfl rfl rfl rfl (by decide),
   c1_token_precedence.2.2 wBase loaderFileOnly "tf" "filetoken" rFileOnly
     rfl rfl rfl (by decide) (by decide)⟩

/-- C2 is refuted on the code: a present-but-malformed client certificate
(`client_certificate_data = "BAD"`, whose base64 decoding fails) does not
make `create_client_builder` fail; the identity is silently skipped and
the build succeeds with no identity set. -/
theorem c2_counterexample :
    userBadCert.client_certificate_data = some "BAD" ∧
    wBase.b64decode "BAD" = none ∧
    isError (p12 wBase userBadCert " ") = true ∧
    create_client_builder wBase loaderBadCert = .ok rBadCert ∧
    rBadCert.builder.identity = none := by
  refine ⟨rfl, by decide, by decide, by decide, rfl⟩

/-- C2 (amended): present-but-malformed client certificate material makes
client-identity resolution (`p12`) fail with a TLS-material error, but
`create_client_builder` silently skips the identity on any `p12` failure
(malformed or absent alike): the identity stage still succeeds, leaving
the builder unchanged except for the insecure fallback flag when the
cluster explicitly opts in. -/
theorem c2_identity_failure_skipped :
    (∀ (w : World) (user : AuthInfo) (d : String),
      user.client_certificate_data = some d → w.b64decode d = none →
      p12 w user " " = .error .SslError) ∧
    (∀ (w : World) (loader : KubeConfigLoader) (cb : ClientBuilderState)
      (e : ErrorKind),
      p12 w loader.user " " = .error e →
      identityStep w loader cb =
        .ok (if loader.cluster.insecure_skip_tls_verify = some true then
          cb.set_danger true else cb)) := by
  refine ⟨?_, ?_⟩
  · intro w user d hd hb
    unfold p12
    have hc : data_or_file_with_base64 w user.client_certificate_data
        user.client_certificate = .error .SslError := by
      rw [hd]
      unfold data_or_file_with_base64
      show okOr ErrorKind.SslError (w.b64decode d) = _
      rw [hb]
      rfl
    rw [hc, bindError]
  · intro w loader cb e hp
    exact identityStep_of_p12_error hp

/-- C2 witness: the amended clauses at the malformed-certificate user. -/
theorem c2_witness :
    p12 wBase userBadCert " " = .error .SslError ∧
    identityStep wBase loaderBadCert ClientBuilderState.new =
      .ok (if loaderBadCert.cluster.insecure_skip_tls_verify = some true then
        ClientBuilderState.new.set_danger true else ClientBuilderState.new) :=
  ⟨c2_identity_failure_skipped.1 wBase userBadCert "BAD" rfl (by decide),
   c2_identity_failure_skipped.2 wBase loaderBadCert ClientBuilderState.new
     .SslError
     (c2_identity_failure_skipped.1 wBase userBadCert "BAD" rfl (by decide))⟩

/-- C3: on every successful build, `danger_accept_invalid_certs` is set
if and only if client-identity resolution failed AND the cluster
explicitly set `insecure_skip_tls_verify = true`. -/
theorem c3_insecure_flag_iff :
    ∀ (w : World) (loader : KubeConfigLoader) (r : BuildResult),
      create_client_builder w loader = .ok r →
      (r.builder.danger_accept_invalid_certs = true ↔
        (isError (p12 w loader.user " ") = true ∧
         loader.cluster.insecure_skip_tls_verify = some true)) := by
  intro w loader r hr
  obtain ⟨tn, cb1, cb2, hs, g1, g2, g3, g4, rfl⟩ :=
    create_client_builder_ok_iff.mp hr
  have hca := caStep_fields g2
  have h0 : cb1.danger_accept_invalid_certs = false := by
    rw [hca.2.1]; rfl
  have := identityStep_danger g3 h0
  simpa [ClientBuilderState.set_default_headers] using this

/-- C3 witness: the iff at a failing identity with the insecure opt-in. -/
theorem c3_witness :
    rBadCertInsecure.builder.danger_accept_invalid_certs = true ↔
      (isError (p12 wBase loaderBadCertInsecure.user " ") = true ∧
       loaderBadCertInsecure.cluster.insecure_skip_tls_verify = some true) :=
  c3_insecure_flag_iff wBase loaderBadCertInsecure rBadCertInsecure
    (by decide)

/-- C4: when the token is absent, exec is configured, and the exec
response parses but carries no `status`, the build fails with the
exec-plugin error saying the response did not contain a status. -/
theorem c4_exec_missing_status :
    ∀ (w : World) (loader : KubeConfigLoader) (ex : ExecConfig)
      (creds : ExecCredential),
      loader.user.token = none → loader.user.exec = some ex →
      w.execRun ex = .ok creds → creds.status = none →
      create_client_builder w loader =
        .error (.KubeConfig "exec-plugin response did not contain a status") := by
  intro w loader ex creds h1 h2 h3 h4
  exact create_client_builder_error_tokenStep
    (tokenStep_of_exec_nostatus h1 h2 h3 h4)

/-- C4 witness: the statusless exec world fails the build with the exec
error. -/
theorem c4_witness :
    create_client_builder wExecNoStatus loaderFileExec =
      .error (.KubeConfig "exec-plugin response did not contain a status") :=
  c4_exec_missing_status wExecNoStatus loaderFileExec execCfgEx ⟨none⟩
    rfl rfl rfl rfl

/-- C5 is refuted on the namespace part: `load_kube_config_with` builds
the configuration through `Configuration::new`, which hardcodes the
namespace `"default"`; a selection whose context namespace is `myns`
still yields `default_ns = "default"`. -/
theorem c5_counterexample :
    loaderNs.ns = "myns" ∧
    load_kube_config_with wBase loaderNs = .ok cfgNs ∧
    cfgNs.default_ns = "default" ∧
    cfgNs.default_ns ≠ loaderNs.ns := by
  refine ⟨rfl, by decide, rfl, by decide⟩

/-- C5 (amended): every successful kubeconfig build returns a
configuration whose `base_path` equals the selected cluster's `server`
and whose default namespace is always the literal `"default"` (the
context's namespace is not consulted); and with user token `abc123` the
default header is `Bearer abc123`. -/
theorem c5_base_path_and_default_ns :
    (∀ (w : World) (loader : KubeConfigLoader) (cfg : Configuration),
      load_kube_config_with w loader = .ok cfg →
      cfg.base_path = loader.cluster.server ∧ cfg.default_ns = "default") ∧
    (∀ (w : World) (loader : KubeConfigLoader) (cfg : Configuration)
      (t : String),
      loader.user.token = some t →
      load_kube_config_with w loader = .ok cfg →
      cfg.client.default_headers = [("authorization", "Bearer " ++ t)]) := by
  refine ⟨?_, ?_⟩
  · intro w loader cfg hl
    obtain ⟨r, hr, rfl⟩ := load_kube_config_with_ok_iff.mp hl
    obtain ⟨tn, cb1, cb2, hs, g1, g2, g3, g4, rfl⟩ :=
      create_client_builder_ok_iff.mp hr
    exact ⟨rfl, rfl⟩
  · intro w loader cfg t ht hl
    obtain ⟨r, hr, rfl⟩ := load_kube_config_with_ok_iff.mp hl
    have := build_headers_of_resolved (tokenStep_of_token ht)
      (data_or_file_some w t loader.user.token_file) hr
    simpa [Configuration.new, Configuration.with_default_ns] using this

/-- C5 witness: both amended clauses at the direct-token loader. -/
theorem c5_witness :
    (cfgTok.base_path = loaderTok.cluster.server ∧
     cfgTok.default_ns = "default") ∧
    cfgTok.client.default_headers = [("authorization", "Bearer " ++ "abc123")] :=
  ⟨c5_base_path_and_default_ns.1 wBase loaderTok cfgTok (by decide),
   c5_base_path_and_default_ns.2 wBase loaderTok cfgTok "abc123" rfl
     (by decide)⟩

/-- C6: with both inline CA data and a CA file path configured, the CA
bundle is resolved from the inline data — independent of the file system
and equal to the decode-then-parse of the inline data — and on a
successful build every certificate decoded from the bundle is added (in
order, DER-roundtripped) as a trusted root. -/
theorem c6_ca_inline_preferred :
    (∀ (w : World) (g : String → Option String) (cluster : Cluster)
      (d f : String),
      cluster.certificate_authority_data = some d →
      cluster.certificate_authority = some f →
      ca_bundle { w with readFile := g } cluster = ca_bundle w cluster) ∧
    (∀ (w : World) (cluster : Cluster) (d f bs : String)
      (certs : List String),
      cluster.certificate_authority_data = some d →
      cluster.certificate_authority = some f →
      w.b64decode d = some bs → w.parseCerts bs = some certs →
      ca_bundle w cluster = some (.ok certs)) ∧
    (∀ (w : World) (loader : KubeConfigLoader) (certs : List String)
      (r : BuildResult),
      ca_bundle w loader.cluster = some (.ok certs) →
      create_client_builder w loader = .ok r →
      certsRoundtrip w certs = .ok r.builder.root_certificates) := by
  refine ⟨?_, ?_, ?_⟩
  · intro w g cluster d f hd hf
    unfold ca_bundle
    rw [hd]
  · intro w cluster d f bs certs hd hf hb hp
    unfold ca_bundle
    rw [hd]
    show some (do
      let bytes ← okOr ErrorKind.SslError (w.b64decode d)
      okOr .SslError (w.parseCerts bytes)) = _
    rw [hb, show okOr ErrorKind.SslError (some bs) = .ok bs from rfl, bindOk,
      hp]
    rfl
  · intro w loader certs r hb hr
    obtain ⟨tn, cb1, cb2, hs, g1, g2, g3, g4, rfl⟩ :=
      create_client_builder_ok_iff.mp hr
    obtain ⟨cs, hcs, hroots⟩ := caStep_roots_of_bundle hb g2
    have hid := (identityStep_fields g3).1
    have hfin : (BuildResult.mk (cb2.set_default_headers hs) loader
        tn.2).builder.root_certificates = cs := by
      show (cb2.set_default_headers hs).root_certificates = cs
      rw [show (cb2.set_default_headers hs).root_certificates =
        cb2.root_certificates from rfl, hid, hroots]
      simp [ClientBuilderState.new]
    rw [hfin, hcs]

/-- C6 witness: the three clauses at the both-CA cluster. -/
theorem c6_witness :
    ca_bundle { wBase with readFile := gNone } clusterBothCA =
      ca_bundle wBase clusterBothCA ∧
    ca_bundle wBase clusterBothCA = some (.ok ["CAINLINE"]) ∧
    certsRoundtrip wBase ["CAINLINE"] = .ok rTokCA.builder.root_certificates :=
  ⟨c6_ca_inline_preferred.1 wBase gNone clusterBothCA "CAINLINE" "cafile"
     rfl rfl,
   c6_ca_inline_preferred.2.1 wBase clusterBothCA "CAINLINE" "cafile"
     "CAINLINE" ["CAINLINE"] rfl rfl (by decide) rfl,
   c6_ca_inline_preferred.2.2 wBase loaderTokCA ["CAINLINE"] rTokCA
     (by decide) (by decide)⟩

/-- C7: when no token resolves, both username and password present yield
the Basic header of base64(`user:pass`); when they are not both present,
no Authorization header is set; and in either case the build still
succeeds (anonymous access is not an error). -/
theorem c7_basic_or_anonymous :
    (∀ (w : World) (token : Option String) (user : AuthInfo) (u p : String)
      (e : ErrorKind),
      data_or_file w token user.token_file = .error e →
      user.username = some u → user.password = some p →
      headerStep w token user =
        .ok [("authorization", "Basic " ++ base64encode (u ++ ":" ++ p))]) ∧
    (∀ (w : World) (token : Option String) (user : AuthInfo) (e : ErrorKind),
      data_or_file w token user.token_file = .error e →
      (user.username = none ∨ user.password = none) →
      headerStep w token user = .ok []) ∧
    (∀ (w : World) (loader : KubeConfigLoader) (tn : Option String × Nat)
      (cb1 cb2 : ClientBuilderState) (e : ErrorKind),
      tokenStep w loader.user = .ok tn →
      caStep w loader.cluster ClientBuilderState.new = .ok cb1 →
      identityStep w loader cb1 = .ok cb2 →
      data_or_file w tn.1 loader.user.token_file = .error e →
      isError (create_client_builder w loader) = false) := by
  refine ⟨?_, ?_, ?_⟩
  · intro w token user u p e hdf hu hp
    exact headerStep_basic_ok hdf hu hp
  · intro w token user e hdf hup
    exact headerStep_of_anonymous hdf hup
  · intro w loader tn cb1 cb2 e g1 g2 g3 hdf
    obtain ⟨hs, h4⟩ : ∃ hs, headerStep w tn.1 loader.user = .ok hs := by
      rcases hu : loader.user.username with _ | u
      · exact ⟨[], headerStep_of_anonymous hdf (Or.inl hu)⟩
      · rcases hp : loader.user.password with _ | p
        · exact ⟨[], headerStep_of_anonymous hdf (Or.inr hp)⟩
        · exact ⟨_, headerStep_basic_ok hdf hu hp⟩
    have hok : create_client_builder w loader =
        .ok ⟨cb2.set_default_headers hs, loader, tn.2⟩ :=
      create_client_builder_ok_iff.mpr ⟨tn, cb1, cb2, hs, g1, g2, g3, h4, rfl⟩
    rw [hok]
    rfl

/-- C7 witness: the Basic header, the anonymous empty headers, and build
success, at concrete users. -/
theorem c7_witness :
    headerStep wBase none userBasic =
      .ok [("authorization", "Basic " ++ base64encode ("u1" ++ ":" ++ "p1"))] ∧
    headerStep wBase none userAnon = .ok [] ∧
    isError (create_client_builder wBase loaderAnon) = false :=
  ⟨c7_basic_or_anonymous.1 wBase none userBasic "u1" "p1"
     (.KubeConfig "Failed to get data or file") (by decide) rfl rfl,
   c7_basic_or_anonymous.2.1 wBase none userAnon
     (.KubeConfig "Failed to get data or file") (by decide) (Or.inl rfl),
   c7_basic_or_anonymous.2.2 wBase loaderAnon (none, 0)
     ClientBuilderState.new ClientBuilderState.new
     (.KubeConfig "Failed to get data or file")
     (by decide) (by decide) (by decide) (by decide)⟩

/-- C8: a resolved bearer token whose header value contains a character
rejected by the header encoder makes both the header stage and the whole
build fail with the `Invalid bearer token` error — it is surfaced, never
silently dropped. -/
theorem c8_invalid_header_surfaced :
    (∀ (w : World) (token : Option String) (user : AuthInfo) (tok : String),
      data_or_file w token user.token_file = .ok tok →
      headerValueFromStr ("Bearer " ++ tok) = none →
      headerStep w token user = .error (.KubeConfig "Invalid bearer token")) ∧
    (∀ (w : World) (loader : KubeConfigLoader) (tn : Option String × Nat)
      (cb1 cb2 : ClientBuilderState) (tok : String),
      tokenStep w loader.user = .ok tn →
      caStep w loader.cluster ClientBuilderState.new = .ok cb1 →
      identityStep w loader cb1 = .ok cb2 →
      data_or_file w tn.1 loader.user.token_file = .ok tok →
      headerValueFromStr ("Bearer " ++ tok) = none →
      create_client_builder w loader =
        .error (.KubeConfig "Invalid bearer token")) := by
  refine ⟨?_, ?_⟩
  · intro w token user tok h1 h2
    exact headerStep_token_invalid h1 h2
  · intro w loader tn cb1 cb2 tok g1 g2 g3 h1 h2
    exact create_client_builder_error_headerStep g1 g2 g3
      (headerStep_token_invalid h1 h2)

/-- C8 witness: a token with an embedded newline fails the header stage
and the build with the invalid-credential error. -/
theorem c8_witness :
    headerStep wBase (some "bad\ntok") userBadHeader =
      .error (.KubeConfig "Invalid bearer token") ∧
    create_client_builder wBase loaderBadHeader =
      .error (.KubeConfig "Invalid bearer token") :=
  ⟨c8_invalid_header_surfaced.1 wBase (some "bad\ntok") userBadHeader
     "bad\ntok" rfl (by decide),
   c8_invalid_header_surfaced.2 wBase loaderBadHeader (some "bad\ntok", 0)
     ClientBuilderState.new ClientBuilderState.new "bad\ntok"
     (by decide) (by decide) (by decide) rfl (by decide)⟩

/-- C9: in-cluster resolution with either required environment variable
unset fails with the error naming both variable names; with both set but
the mounted token file missing (and the CA loadable) it fails with the
distinct in-cluster-token error, different from the CA (`SslError`) and
namespace errors. -/
theorem c9_incluster_errors :
    (∀ (w : World),
      (w.getEnv SERVICE_HOSTENV = none ∨ w.getEnv SERVICE_PORTENV = none) →
      incluster_config w =
        .error (.KubeConfig ("Unable to load incluster config, " ++
          SERVICE_HOSTENV ++ " and " ++ SERVICE_PORTENV ++
          " must be defined"))) ∧
    (∀ (w : World) (host port c d rc : String),
      w.getEnv SERVICE_HOSTENV = some host →
      w.getEnv SERVICE_PORTENV = some port →
      load_cert w = some c → w.toDer c = some d → w.fromDer d = some rc →
      w.readFile SERVICE_TOKENFILE = none →
      incluster_config w =
        .error (.KubeConfig "Unable to load in cluster token")) ∧
    ((ErrorKind.KubeConfig "Unable to load in cluster token" ≠
        ErrorKind.SslError) ∧
     (ErrorKind.KubeConfig "Unable to load in cluster token" ≠
        ErrorKind.KubeConfig "Unable to load incluster default namespace")) := by
  refine ⟨?_, ?_, by decide, by decide⟩
  · intro w hdisj
    have hks : kube_server w = none := by
      unfold kube_server
      rcases hdisj with hh | hp
      · rw [hh]
      · rcases hH : w.getEnv SERVICE_HOSTENV with _ | host
        · rfl
        · rw [hp]
    unfold incluster_config
    rw [hks]
    rfl
  · intro w host port c d rc hH hP hc hd2 hrc htok
    have hks : kube_server w = some ("https://" ++ host ++ ":" ++ port) := by
      unfold kube_server
      rw [hH, hP]
    unfold incluster_config
    rw [hks, show okOr (ErrorKind.KubeConfig ("Unable to load incluster config, "
        ++ SERVICE_HOSTENV ++ " and " ++ SERVICE_PORTENV ++ " must be defined"))
      (some ("https://" ++ host ++ ":" ++ port)) =
      .ok ("https://" ++ host ++ ":" ++ port) from rfl, bindOk]
    rw [hc, show okOr ErrorKind.SslError (some c) = .ok c from rfl, bindOk]
    rw [hd2, show okOr ErrorKind.SslError (some d) = .ok d from rfl, bindOk]
    rw [hrc, show okOr ErrorKind.SslError (some rc) = .ok rc from rfl, bindOk]
    rw [show load_token w = w.readFile SERVICE_TOKENFILE from rfl, htok]
    rfl

/-- C9 witness: the env-var error with no environment, and the token
error with the token file missing. -/
theorem c9_witness :
    incluster_config wInclusterNoEnv =
      .error (.KubeConfig ("Unable to load incluster config, " ++
        SERVICE_HOSTENV ++ " and " ++ SERVICE_PORTENV ++
        " must be defined")) ∧
    incluster_config wInclusterNoToken =
      .error (.KubeConfig "Unable to load in cluster token") :=
  ⟨c9_incluster_errors.1 wInclusterNoEnv (Or.inl rfl),
   c9_incluster_errors.2.1 wInclusterNoToken "10.0.0.1" "443" "CERTPEM"
     "CERTPEM" "CERTPEM" (by decide) (by decide) (by decide) rfl rfl
     (by decide)⟩

/-- C10 (implicit): the exec plugin is invoked exactly when the direct
token is absent and exec is configured (even when a token file is also
configured), at most once per build; and when the exec status carries no
token, the token file is the fallback for the header. -/
theorem c10_exec_invocation :
    (∀ (w : World) (user : AuthInfo) (tn : Option String × Nat),
      tokenStep w user = .ok tn →
      (tn.2 = 1 ↔ (user.token = none ∧ user.exec ≠ none))) ∧
    (∀ (w : World) (loader : KubeConfigLoader) (r : BuildResult),
      create_client_builder w loader = .ok r → r.execInvocations ≤ 1) ∧
    (∀ (w : World) (loader : KubeConfigLoader) (ex : ExecConfig)
      (creds : ExecCredential) (st : ExecStatus) (f s : String)
      (r : BuildResult),
      loader.user.token = none → loader.user.exec = some ex →
      w.execRun ex = .ok creds → creds.status = some st → st.token = none →
      loader.user.token_file = some f → w.readFile f = some s →
      create_client_builder w loader = .ok r →
      r.builder.default_headers = [("authorization", "Bearer " ++ s)]) := by
  refine ⟨?_, ?_, ?_⟩
  · intro w user tn h
    exact tokenStep_count_one_iff h
  · intro w loader r hr
    obtain ⟨tn, cb1, cb2, hs, g1, g2, g3, g4, rfl⟩ :=
      create_client_builder_ok_iff.mp hr
    exact tokenStep_count g1
  · intro w loader ex creds st f s r h1 h2 h3 h4 h5 h6 h7 hr
    have hts := tokenStep_of_exec h1 h2 h3 h4
    rw [h5] at hts
    have hdf : data_or_file w (none, 1).1 loader.user.token_file = .ok s := by
      rw [h6]
      show data_or_file w none (some f) = .ok s
      rw [data_or_file_none_some, h7]
      rfl
    exact build_headers_of_resolved hts hdf hr

/-- C10 witness: the invocation-count iff, the at-most-once bound, and
the token-file fallback after a tokenless exec response, at concrete
inputs. -/
theorem c10_witness :
    ((some "exectoken", 1).2 = 1 ↔
      (userFileExec.token = none ∧ userFileExec.exec ≠ none)) ∧
    rFileExec.execInvocations ≤ 1 ∧
    rFileExecFallback.builder.default_headers =
      [("authorization", "Bearer " ++ "filetoken")] :=
  ⟨c10_exec_invocation.1 wBase userFileExec (some "exectoken", 1) (by decide),
   c10_exec_invocation.2.1 wBase loaderFileExec rFileExec (by decide),
   c10_exec_invocation.2.2 wExecNoToken loaderFileExec execCfgEx
     ⟨some ⟨none, none, none⟩⟩ ⟨none, none, none⟩ "tf" "filetoken"
     rFileExecFallback rfl rfl rfl rfl rfl rfl (by decide) (by decide)⟩

end KubeConfig
